import Mathlib

/-!
Shallow embedding of the cslab home-automation integration
(`homeassistant/components/cslab/`): the `CSHomeMaster` connection /
protocol / state-synchronization engine from `cshome_master.py`, the data
model and JSON mapping from `cshome_helpers.py`, and the boundary
conversion functions from `light.py` and `cover.py`.

Modelling conventions:
* Decoded JSON values (the result of `json.loads`) are the inductive
  `Json`.  Python `None` and JSON `null` coincide observably through
  `dict.get`, so both are `Json.null`.  Numbers carry their rational
  value; the int/float distinction of the wire is not represented (all
  protocol fields exercised here are ints, bools or strings).
* Python exceptions escaping a function are `Except PyErr`.
* Log/warning emissions and the two readiness signals are recorded as an
  ordered event trace `List Ev` so that ordering claims can be stated.
* The per-device callback set is summarised by `publishCount`: each call
  of `publish_updates` invokes every registered callback once and
  increments the counter by one.
* `asyncio` scheduling points (`await asyncio.sleep`) and the waits on
  readiness events are synchronization only and have no state effect;
  they are not represented.
-/

/-- Python exceptions that the translated code can raise. -/
inductive PyErr
  | attributeError
  | valueError
  | typeError
  | keyError
  | indexError
deriving DecidableEq, Repr

/-- Decoded JSON value, as produced by `json.loads`. -/
inductive Json
  | null
  | bool (b : Bool)
  | num (q : ℚ)
  | str (s : String)
  | arr (xs : List Json)
  | obj (kvs : List (String × Json))
deriving Inhabited

/-- Numeric view used by Python `==` and comparisons: `True == 1`,
`False == 0`. -/
def Json.toNum? : Json → Option ℚ
  | .num q => some q
  | .bool b => some (if b then 1 else 0)
  | _ => none

mutual

/-- Python `==` on decoded JSON values: numeric cross-comparison between
bools and numbers, structural comparison elsewhere.  Decoded dicts keep
their wire order and are compared pointwise (every comparison in this
protocol is between scalars). -/
def Json.pyEq : Json → Json → Bool
  | .null, .null => true
  | .bool a, .bool b => a == b
  | .bool a, .num q => (if a then (1 : ℚ) else 0) == q
  | .num q, .bool b => q == (if b then (1 : ℚ) else 0)
  | .num a, .num b => a == b
  | .str a, .str b => a == b
  | .arr xs, .arr ys => Json.pyEqList xs ys
  | .obj xs, .obj ys => Json.pyEqKVs xs ys
  | _, _ => false

/-- Pointwise Python `==` on lists. -/
def Json.pyEqList : List Json → List Json → Bool
  | [], [] => true
  | x :: xs, y :: ys => Json.pyEq x y && Json.pyEqList xs ys
  | _, _ => false

/-- Pointwise Python `==` on key/value pair lists. -/
def Json.pyEqKVs : List (String × Json) → List (String × Json) → Bool
  | [], [] => true
  | (k, v) :: xs, (l, w) :: ys => k == l && Json.pyEq v w && Json.pyEqKVs xs ys
  | _, _ => false

end

/-- True exactly on `Json.null` (Python `is None`, given that missing
keys and JSON nulls coincide through `dict.get`). -/
def Json.isNull : Json → Bool
  | .null => true
  | _ => false

/-- Python `jval.get(key)`: only dicts have `.get` (anything else raises
`AttributeError`); a missing key yields `None`. -/
def Json.pyGet : Json → String → Except PyErr Json
  | .obj kvs, k =>
      .ok (match List.lookup k kvs with
           | some v => v
           | none => .null)
  | _, _ => .error .attributeError

/-- Python `key in jval` for a string key: key membership on dicts,
substring test on strings, element equality on lists, `TypeError`
otherwise. -/
def Json.pyContains : Json → String → Except PyErr Bool
  | .obj kvs, k => .ok (kvs.any (fun kv => kv.1 == k))
  | .str s, k => .ok (k.isEmpty || (s.splitOn k).length > 1)
  | .arr xs, k => .ok (xs.any (fun x => Json.pyEq x (.str k)))
  | _, _ => .error .typeError

/-- Python `jval[key]`: dict subscription (`KeyError` when missing),
`TypeError` on any non-dict. -/
def Json.pySubscript : Json → String → Except PyErr Json
  | .obj kvs, k =>
      match List.lookup k kvs with
      | some v => .ok v
      | none => .error .keyError
  | _, _ => .error .typeError

/-- Python iteration `for x in jval`: list elements, dict keys,
characters of a string, `TypeError` otherwise. -/
def Json.pyIter : Json → Except PyErr (List Json)
  | .arr xs => .ok xs
  | .obj kvs => .ok (kvs.map (fun kv => .str kv.1))
  | .str s => .ok (s.toList.map (fun c => .str (String.singleton c)))
  | _ => .error .typeError

/-- Python truthiness of a decoded JSON value. -/
def Json.pyTruthy : Json → Bool
  | .null => false
  | .bool b => b
  | .num q => q != 0
  | .str s => !s.isEmpty
  | .arr xs => !xs.isEmpty
  | .obj kvs => !kvs.isEmpty

/-- Integer view of a value used where Python requires an int (list
repetition, list subscription): ints and bools qualify. -/
def Json.toInt? : Json → Option ℤ
  | .num q => if q.den = 1 then some q.num else none
  | .bool b => some (if b then 1 else 0)
  | .null => none
  | .str _ => none
  | .arr _ => none
  | .obj _ => none

/-! ## Data model (`cshome_helpers.py`) -/

/-- Enum for accessory type (`AccType` in `cshome_helpers.py`). -/
inductive AccType
  | ANY
  | LIGHT
  | RELAY
  | WINDOWBLIND
  | SWITCH
  | XORSWITCH
deriving DecidableEq, Repr

/-- Python `AccType(value)`: enum lookup by value (ANY=0, LIGHT=1,
RELAY=2, WINDOWBLIND=3, SWITCH=4, XORSWITCH=5), `ValueError` for any
other value. -/
def AccType.fromJson : Json → Except PyErr AccType := fun j =>
  match j.toNum? with
  | some q =>
      if q = 0 then .ok .ANY
      else if q = 1 then .ok .LIGHT
      else if q = 2 then .ok .RELAY
      else if q = 3 then .ok .WINDOWBLIND
      else if q = 4 then .ok .SWITCH
      else if q = 5 then .ok .XORSWITCH
      else .error .valueError
  | none => .error .valueError

/-- Enum for service type (`SvcType`). -/
inductive SvcType
  | ANY
  | BOOLEAN
  | BRIGHTNESS
  | COLOR
  | POSITION
deriving DecidableEq, Repr

/-- Python `SvcType(value)` (ANY=0 .. POSITION=4). -/
def SvcType.fromJson : Json → Except PyErr SvcType := fun j =>
  match j.toNum? with
  | some q =>
      if q = 0 then .ok .ANY
      else if q = 1 then .ok .BOOLEAN
      else if q = 2 then .ok .BRIGHTNESS
      else if q = 3 then .ok .COLOR
      else if q = 4 then .ok .POSITION
      else .error .valueError
  | none => .error .valueError

/-- Enum for service role (`SvcRole`). -/
inductive SvcRole
  | ANY
  | ACTUATOR
  | INITIATOR
deriving DecidableEq, Repr

/-- Python `SvcRole(value)` (ANY=0, ACTUATOR=1, INITIATOR=2). -/
def SvcRole.fromJson : Json → Except PyErr SvcRole := fun j =>
  match j.toNum? with
  | some q =>
      if q = 0 then .ok .ANY
      else if q = 1 then .ok .ACTUATOR
      else if q = 2 then .ok .INITIATOR
      else .error .valueError
  | none => .error .valueError

/-- Enum for module type (`CSModuleType`). -/
inductive CSModuleType
  | ANY
  | CSLIGHT_CTRL
  | LBUS_WLED
  | CSMIO_IOBoard
deriving DecidableEq, Repr

/-- Python `CSModuleType(value)` (ANY=0, CSLIGHT_CTRL=1, LBUS_WLED=2,
CSMIO_IOBoard=3). -/
def CSModuleType.fromJson : Json → Except PyErr CSModuleType := fun j =>
  match j.toNum? with
  | some q =>
      if q = 0 then .ok .ANY
      else if q = 1 then .ok .CSLIGHT_CTRL
      else if q = 2 then .ok .LBUS_WLED
      else if q = 3 then .ok .CSMIO_IOBoard
      else .error .valueError
  | none => .error .valueError

/-- Dataclass `AccessoryLocation`.  Fields hold whatever the JSON
carried (`dict.get` results). -/
structure AccessoryLocation where
  room : Json
  zone : Json
  pos_x : Json
  pos_y : Json
  pos_z : Json

/-- Dataclass `Accessory`.  The `type` field always holds a valid
`AccType` because `CSHomeItemFromJson` builds it through the enum
constructor; the remaining fields hold raw JSON values. -/
structure Accessory where
  id : Json
  name : Json
  type : AccType
  location : AccessoryLocation

/-- Dataclass `CSModule`. -/
structure CSModule where
  mac : Json
  sn : Json
  name : Json
  type : CSModuleType
  index : Json

/-- `CSModule.__eq__`: field-by-field Python equality over
(mac, sn, name, type, index). -/
def CSModule.beq (a b : CSModule) : Bool :=
  Json.pyEq a.mac b.mac && Json.pyEq a.sn b.sn && Json.pyEq a.name b.name
    && (a.type == b.type) && Json.pyEq a.index b.index

/-- Dataclass `Service`. -/
structure Service where
  id : Json
  role : SvcRole
  type : SvcType

/-- Dataclass `CSHomeSvcItem`: a service with the modules implementing
it. -/
structure CSHomeSvcItem where
  service : Service
  modules : List CSModule

/-- Dataclass `CSHomeItem`: an accessory with its services. -/
structure CSHomeItem where
  accessory : Accessory
  services : List CSHomeSvcItem

/-- `CSHomeItem.has_brightness`. -/
def CSHomeItem.has_brightness (hi : CSHomeItem) : Bool :=
  hi.services.any (fun svc => svc.service.type == SvcType.BRIGHTNESS)

/-- `CSHomeItem.get_module_by_sn`: first module across the services
whose serial number compares equal to `sn`. -/
def CSHomeItem.get_module_by_sn (hi : CSHomeItem) (sn : Json) : Option CSModule :=
  hi.services.findSome? (fun svc => svc.modules.find? (fun m => Json.pyEq m.sn sn))

/-- `CSModuleFromJson`: build a `CSModule` from a decoded dict; raises
`AttributeError` on non-dicts and `ValueError` on an unknown module
type value. -/
def CSModuleFromJson (data : Json) : Except PyErr CSModule :=
  match data.pyGet "mac" with
  | .error e => .error e
  | .ok mac =>
    match data.pyGet "sn" with
    | .error e => .error e
    | .ok sn =>
      match data.pyGet "name" with
      | .error e => .error e
      | .ok name =>
        match data.pyGet "type" with
        | .error e => .error e
        | .ok tj =>
          match CSModuleType.fromJson tj with
          | .error e => .error e
          | .ok t =>
            match data.pyGet "index" with
            | .error e => .error e
            | .ok idx => .ok ⟨mac, sn, name, t, idx⟩

/-- Trace events: the log/warning emissions and the model events whose
presence or ordering the protocol contracts talk about. -/
inductive Ev
  | logParseError
  | logUnknownJson
  | logInvalidAccState
  | logUnknownDevice
  | logInvalidHomeModel
  | logInvalidModuleList
  | logInvalidWLedDiag
  | logInvalidLBusStatus
  | warnUnknownAccType
  | warnDuplicateModule
  | itemAppended
  | devAppended (k : AccType)
  | signalHomeModelReady
  | signalModuleListReady
deriving DecidableEq, Repr

/-- The module loop of `CSHomeItemFromJson` on already-constructed
modules: `if module not in modules: modules.append(module) else: log`.
Accumulates the kept modules in order and a duplicate warning per
rejected module. -/
def dedupLoop (acc : List CSModule) (evs : List Ev) :
    List CSModule → List CSModule × List Ev
  | [] => (acc, evs)
  | m :: rest =>
      if acc.any (fun x => CSModule.beq x m) then
        dedupLoop acc (evs ++ [.warnDuplicateModule]) rest
      else
        dedupLoop (acc ++ [m]) evs rest

/-- Duplicate rejection over one service's module list. -/
def dedupModules (ms : List CSModule) : List CSModule × List Ev :=
  dedupLoop [] [] ms

/-- The `for mod in svc_item.get("modules")` loop of
`CSHomeItemFromJson`: construct each module and drop duplicates,
logging them. -/
def buildModules : List Json → List CSModule → List Ev →
    Except PyErr (List CSModule × List Ev)
  | [], acc, evs => .ok (acc, evs)
  | j :: rest, acc, evs =>
      match CSModuleFromJson j with
      | .error e => .error e
      | .ok m =>
          if acc.any (fun x => CSModule.beq x m) then
            buildModules rest acc (evs ++ [.warnDuplicateModule])
          else
            buildModules rest (acc ++ [m]) evs

/-- The `for svc_item in data.get("services")` loop of
`CSHomeItemFromJson`. -/
def buildServices : List Json → List CSHomeSvcItem → List Ev →
    Except PyErr (List CSHomeSvcItem × List Ev)
  | [], acc, evs => .ok (acc, evs)
  | svcItemJ :: rest, acc, evs =>
      match svcItemJ.pyGet "service" with
      | .error e => .error e
      | .ok svcJ =>
        match svcJ.pyGet "id" with
        | .error e => .error e
        | .ok sId =>
          match svcJ.pyGet "role" with
          | .error e => .error e
          | .ok roleJ =>
            match SvcRole.fromJson roleJ with
            | .error e => .error e
            | .ok role =>
              match svcJ.pyGet "type" with
              | .error e => .error e
              | .ok typeJ =>
                match SvcType.fromJson typeJ with
                | .error e => .error e
                | .ok ty =>
                  match svcItemJ.pyGet "modules" with
                  | .error e => .error e
                  | .ok modsJ =>
                    match modsJ.pyIter with
                    | .error e => .error e
                    | .ok modJs =>
                      match buildModules modJs [] [] with
                      | .error e => .error e
                      | .ok (mods, mevs) =>
                          buildServices rest
                            (acc ++ [⟨⟨sId, role, ty⟩, mods⟩]) (evs ++ mevs)

/-- `CSHomeItemFromJson`: build a `CSHomeItem` from one decoded
accessory entry.  Raises `AttributeError` when `accessory` or
`location` is missing/not a dict, `ValueError` on an invalid enum
value, `TypeError` when `services` or `modules` is not iterable. -/
def CSHomeItemFromJson (data : Json) : Except PyErr (CSHomeItem × List Ev) :=
  match data.pyGet "accessory" with
  | .error e => .error e
  | .ok acc_dict =>
    match acc_dict.pyGet "location" with
    | .error e => .error e
    | .ok loc_dict =>
      match acc_dict.pyGet "id" with
      | .error e => .error e
      | .ok accId =>
        match acc_dict.pyGet "name" with
        | .error e => .error e
        | .ok accName =>
          match acc_dict.pyGet "type" with
          | .error e => .error e
          | .ok typeJ =>
            match AccType.fromJson typeJ with
            | .error e => .error e
            | .ok accTy =>
              match loc_dict.pyGet "room" with
              | .error e => .error e
              | .ok room =>
                match loc_dict.pyGet "zone" with
                | .error e => .error e
                | .ok zone =>
                  match loc_dict.pyGet "pos_x" with
                  | .error e => .error e
                  | .ok px =>
                    match loc_dict.pyGet "pos_y" with
                    | .error e => .error e
                    | .ok py =>
                      match loc_dict.pyGet "pos_z" with
                      | .error e => .error e
                      | .ok pz =>
                        match data.pyGet "services" with
                        | .error e => .error e
                        | .ok svcsJ =>
                          match svcsJ.pyIter with
                          | .error e => .error e
                          | .ok svcJs =>
                            match buildServices svcJs [] [] with
                            | .error e => .error e
                            | .ok (svcs, evs) =>
                                .ok (⟨⟨accId, accName, accTy,
                                       ⟨room, zone, px, py, pz⟩⟩, svcs⟩, evs)

/-! ## Device wrappers (`cshome_master.py`) -/

/-- `CSLightDev`: light device state (`CSBaseDev` fields inlined).
`publishCount` counts `publish_updates` invocations; each invocation
calls every registered callback once. -/
structure CSLightDev where
  homeItem : CSHomeItem
  online : Bool := false
  diag_vled : Json := .null
  diag_tntc : Json := .null
  target_state : Json := .null
  current_state : Json := .null
  target_brightness : Json := .num 0
  current_brightness : Json := .num 0
  publishCount : Nat := 0

/-- `CSBaseDev.publish_updates` for a light. -/
def CSLightDev.publish_updates (d : CSLightDev) : CSLightDev :=
  { d with publishCount := d.publishCount + 1 }

/-- `CSBaseDev.set_online` for a light: no-op when unchanged, otherwise
update and publish. -/
def CSLightDev.set_online (d : CSLightDev) (b : Bool) : CSLightDev :=
  if d.online == b then d
  else { d with online := b, publishCount := d.publishCount + 1 }

/-- `CSLightDev.set_current_state`. -/
def CSLightDev.set_current_state (d : CSLightDev) (s : Json) : CSLightDev :=
  CSLightDev.publish_updates { d with current_state := s }

/-- `CSLightDev.set_current_brightness`. -/
def CSLightDev.set_current_brightness (d : CSLightDev) (b : Json) : CSLightDev :=
  CSLightDev.publish_updates { d with current_brightness := b }

/-- `CSLightDev.set_current_brightness_and_state`: one combined update,
one publish. -/
def CSLightDev.set_current_brightness_and_state (d : CSLightDev)
    (b s : Json) : CSLightDev :=
  CSLightDev.publish_updates { d with current_brightness := b, current_state := s }

/-- `CSLightDev.updateDiag`. -/
def CSLightDev.updateDiag (d : CSLightDev) (vled tntc : Json) : CSLightDev :=
  CSLightDev.publish_updates { d with diag_vled := vled, diag_tntc := tntc }

/-- `CSBlindDev`: window-blind device state. -/
structure CSBlindDev where
  homeItem : CSHomeItem
  online : Bool := false
  current_state : Json := .null
  target_position : Json := .num 0
  current_position : Json := .num 0
  publishCount : Nat := 0

/-- `CSBaseDev.publish_updates` for a blind. -/
def CSBlindDev.publish_updates (d : CSBlindDev) : CSBlindDev :=
  { d with publishCount := d.publishCount + 1 }

/-- `CSBaseDev.set_online` for a blind. -/
def CSBlindDev.set_online (d : CSBlindDev) (b : Bool) : CSBlindDev :=
  if d.online == b then d
  else { d with online := b, publishCount := d.publishCount + 1 }

/-- `CSBlindDev.set_current_state`. -/
def CSBlindDev.set_current_state (d : CSBlindDev) (s : Json) : CSBlindDev :=
  CSBlindDev.publish_updates { d with current_state := s }

/-- `CSBlindDev.set_current_position`. -/
def CSBlindDev.set_current_position (d : CSBlindDev) (p : Json) : CSBlindDev :=
  CSBlindDev.publish_updates { d with current_position := p }

/-- `CSRelayDev`: relay device state. -/
structure CSRelayDev where
  homeItem : CSHomeItem
  online : Bool := false
  current_state : Json := .null
  target_state : Bool := false
  publishCount : Nat := 0

/-- `CSBaseDev.publish_updates` for a relay. -/
def CSRelayDev.publish_updates (d : CSRelayDev) : CSRelayDev :=
  { d with publishCount := d.publishCount + 1 }

/-- `CSBaseDev.set_online` for a relay. -/
def CSRelayDev.set_online (d : CSRelayDev) (b : Bool) : CSRelayDev :=
  if d.online == b then d
  else { d with online := b, publishCount := d.publishCount + 1 }

/-- `CSRelayDev.set_current_state`. -/
def CSRelayDev.set_current_state (d : CSRelayDev) (s : Json) : CSRelayDev :=
  CSRelayDev.publish_updates { d with current_state := s }

/-- `CSWallSwitchDev`: wall-switch device state. -/
structure CSWallSwitchDev where
  homeItem : CSHomeItem
  online : Bool := false
  current_state : Json := .null
  publishCount : Nat := 0

/-- `CSBaseDev.publish_updates` for a wall switch. -/
def CSWallSwitchDev.publish_updates (d : CSWallSwitchDev) : CSWallSwitchDev :=
  { d with publishCount := d.publishCount + 1 }

/-- `CSBaseDev.set_online` for a wall switch. -/
def CSWallSwitchDev.set_online (d : CSWallSwitchDev) (b : Bool) : CSWallSwitchDev :=
  if d.online == b then d
  else { d with online := b, publishCount := d.publishCount + 1 }

/-- `CSWallSwitchDev.set_current_state`. -/
def CSWallSwitchDev.set_current_state (d : CSWallSwitchDev) (s : Json) :
    CSWallSwitchDev :=
  CSWallSwitchDev.publish_updates { d with current_state := s }

/-- `CSLightsCtrlModDev`: control-module device with one current reading
per light-bus channel (`_lbCurrents`, initialised to `[0.0] * lb_count`). -/
structure CSLightsCtrlModDev where
  module : CSModule
  lbCurrents : List Json
  publishCount : Nat := 0

/-- `CSLightsCtrlModDev.get_lb_count`. -/
def CSLightsCtrlModDev.get_lb_count (d : CSLightsCtrlModDev) : Nat :=
  d.lbCurrents.length

/-- `CSLightsCtrlModDev.get_lb_current`: `lb_idx` is the raw value from
the message; Python compares it against `len(self._lbCurrents)` (raising
`TypeError` for non-numbers) and returns `None` when not below it.
Subscription requires an int; a negative int counts from the end. -/
def CSLightsCtrlModDev.get_lb_current (d : CSLightsCtrlModDev) (lb_idx : Json) :
    Except PyErr Json :=
  match lb_idx.toNum? with
  | none => .error .typeError
  | some q =>
      if q < (d.lbCurrents.length : ℚ) then
        match lb_idx.toInt? with
        | none => .error .typeError
        | some i =>
            if 0 ≤ i then
              .ok (d.lbCurrents.getD i.toNat .null)
            else
              let j : ℤ := (d.lbCurrents.length : ℤ) + i
              if 0 ≤ j then .ok (d.lbCurrents.getD j.toNat .null)
              else .error .indexError
      else .ok .null

/-- `CSLightsCtrlModDev.set_lb_current`: write the channel reading when
`lb_idx < len(self._lbCurrents)`, otherwise do nothing.  Never
publishes. -/
def CSLightsCtrlModDev.set_lb_current (d : CSLightsCtrlModDev)
    (lb_idx current : Json) : Except PyErr CSLightsCtrlModDev :=
  match lb_idx.toNum? with
  | none => .error .typeError
  | some q =>
      if q < (d.lbCurrents.length : ℚ) then
        match lb_idx.toInt? with
        | none => .error .typeError
        | some i =>
            if 0 ≤ i then
              .ok { d with lbCurrents := d.lbCurrents.set i.toNat current }
            else
              let j : ℤ := (d.lbCurrents.length : ℤ) + i
              if 0 ≤ j then
                .ok { d with lbCurrents := d.lbCurrents.set j.toNat current }
              else .error .indexError
      else .ok d

/-- `CSLightsCtrlModDev.trigger_publish_updates` /
`publish_updates`. -/
def CSLightsCtrlModDev.trigger_publish_updates (d : CSLightsCtrlModDev) :
    CSLightsCtrlModDev :=
  { d with publishCount := d.publishCount + 1 }

/-- The mutable state of a `CSHomeMaster`: the per-kind device
collections, the connection flags and readiness signals, and whether a
TCP writer exists. -/
structure Master where
  home_items : List CSHomeItem := []
  lights : List CSLightDev := []
  blinds : List CSBlindDev := []
  relays : List CSRelayDev := []
  switches : List CSWallSwitchDev := []
  hwModules : List CSModule := []
  ctrlModDevs : List CSLightsCtrlModDev := []
  master_online : Bool := false
  tcpConnectionReady : Bool := false
  homeModelReady : Bool := false
  moduleListReady : Bool := false
  writerPresent : Bool := false

/-- The state `CSHomeMaster.__init__` leaves behind: empty collections,
all flags clear, no reader/writer. -/
def emptyMaster : Master := {}

/-! ## Incoming message handlers (`cshome_master.py`) -/

/-- The per-light body of the `acc-state` handler once a light matched:
`set_online(True)`, then the combined brightness+state update when both
fields are present (one publish), otherwise the individual updates. -/
def accStateApplyLight (l : CSLightDev) (brightness isOn : Json) : CSLightDev :=
  let l1 := l.set_online true
  if !brightness.isNull && !isOn.isNull then
    l1.set_current_brightness_and_state brightness isOn
  else
    let l2 := if !brightness.isNull then l1.set_current_brightness brightness else l1
    if !isOn.isNull then l2.set_current_state isOn else l2

/-- The `for light in self._lights` loop of the `acc-state` handler:
update the first light whose accessory id compares equal to `acc_id`;
`none` when no light matches. -/
def accStateLights : List CSLightDev → Json → Json → Json →
    Option (List CSLightDev)
  | [], _, _, _ => none
  | l :: rest, accId, brightness, isOn =>
      if Json.pyEq l.homeItem.accessory.id accId then
        some (accStateApplyLight l brightness isOn :: rest)
      else
        match accStateLights rest accId brightness isOn with
        | some rest' => some (l :: rest')
        | none => none

/-- The per-blind body of the `acc-state` handler. -/
def accStateApplyBlind (b : CSBlindDev) (currPos state : Json) : CSBlindDev :=
  let b1 := b.set_online true
  let b2 := if !currPos.isNull then b1.set_current_position currPos else b1
  if !state.isNull then b2.set_current_state state else b2

/-- The `for blind in self._blinds` loop of the `acc-state` handler. -/
def accStateBlinds : List CSBlindDev → Json → Json → Json →
    Option (List CSBlindDev)
  | [], _, _, _ => none
  | b :: rest, accId, currPos, state =>
      if Json.pyEq b.homeItem.accessory.id accId then
        some (accStateApplyBlind b currPos state :: rest)
      else
        match accStateBlinds rest accId currPos state with
        | some rest' => some (b :: rest')
        | none => none

/-- The per-relay body of the `acc-state` handler. -/
def accStateApplyRelay (r : CSRelayDev) (state : Json) : CSRelayDev :=
  let r1 := r.set_online true
  if !state.isNull then r1.set_current_state state else r1

/-- The `for relay in self._relays` loop of the `acc-state` handler. -/
def accStateRelays : List CSRelayDev → Json → Json →
    Option (List CSRelayDev)
  | [], _, _ => none
  | r :: rest, accId, state =>
      if Json.pyEq r.homeItem.accessory.id accId then
        some (accStateApplyRelay r state :: rest)
      else
        match accStateRelays rest accId state with
        | some rest' => some (r :: rest')
        | none => none

/-- The per-switch body of the `acc-state` handler. -/
def accStateApplySwitch (s : CSWallSwitchDev) (value : Json) : CSWallSwitchDev :=
  let s1 := s.set_online true
  if !value.isNull then s1.set_current_state value else s1

/-- The `for switch in self._switches` loop of the `acc-state`
handler. -/
def accStateSwitches : List CSWallSwitchDev → Json → Json →
    Option (List CSWallSwitchDev)
  | [], _, _ => none
  | s :: rest, accId, value =>
      if Json.pyEq s.homeItem.accessory.id accId then
        some (accStateApplySwitch s value :: rest)
      else
        match accStateSwitches rest accId value with
        | some rest' => some (s :: rest')
        | none => none

/-- `CSHomeMaster.handleIncomingAccState`: validate `acc-id`/`valid`,
then search lights, blinds, relays and wall switches in that order and
update the first device whose id matches; an unknown id is logged. -/
def handleIncomingAccState (st : Master) (jrpl : Json) :
    Except PyErr (Master × List Ev) :=
  match jrpl.pyGet "acc-id" with
  | .error e => .error e
  | .ok acc_id =>
    match jrpl.pyGet "valid" with
    | .error e => .error e
    | .ok isValid =>
      if isValid.isNull || acc_id.isNull then
        .ok (st, [.logInvalidAccState])
      else
        match jrpl.pyGet "brightness" with
        | .error e => .error e
        | .ok brightness =>
          match jrpl.pyGet "on" with
          | .error e => .error e
          | .ok isOn =>
            match jrpl.pyGet "currPos" with
            | .error e => .error e
            | .ok currPos =>
              match jrpl.pyGet "state" with
              | .error e => .error e
              | .ok state =>
                match jrpl.pyGet "value" with
                | .error e => .error e
                | .ok value =>
                  match accStateLights st.lights acc_id brightness isOn with
                  | some lights' => .ok ({ st with lights := lights' }, [])
                  | none =>
                    match accStateBlinds st.blinds acc_id currPos state with
                    | some blinds' => .ok ({ st with blinds := blinds' }, [])
                    | none =>
                      match accStateRelays st.relays acc_id state with
                      | some relays' => .ok ({ st with relays := relays' }, [])
                      | none =>
                        match accStateSwitches st.switches acc_id value with
                        | some switches' =>
                            .ok ({ st with switches := switches' }, [])
                        | none => .ok (st, [.logUnknownDevice])

/-- A fresh `CSLightDev` as built by the `home-model` handler. -/
def mkLightDev (hi : CSHomeItem) : CSLightDev := { homeItem := hi }

/-- A fresh `CSBlindDev` as built by the `home-model` handler. -/
def mkBlindDev (hi : CSHomeItem) : CSBlindDev := { homeItem := hi }

/-- A fresh `CSRelayDev` as built by the `home-model` handler. -/
def mkRelayDev (hi : CSHomeItem) : CSRelayDev := { homeItem := hi }

/-- A fresh `CSWallSwitchDev` as built by the `home-model` handler. -/
def mkSwitchDev (hi : CSHomeItem) : CSWallSwitchDev := { homeItem := hi }

/-- The per-accessory kind dispatch of the `home-model` handler: append
the typed device to its per-kind collection, or log an unknown
accessory type. -/
def accKindDev (st : Master) (hi : CSHomeItem) : Master × Ev :=
  match hi.accessory.type with
  | .LIGHT => ({ st with lights := st.lights ++ [mkLightDev hi] },
               .devAppended .LIGHT)
  | .WINDOWBLIND => ({ st with blinds := st.blinds ++ [mkBlindDev hi] },
               .devAppended .WINDOWBLIND)
  | .RELAY => ({ st with relays := st.relays ++ [mkRelayDev hi] },
               .devAppended .RELAY)
  | .SWITCH => ({ st with switches := st.switches ++ [mkSwitchDev hi] },
               .devAppended .SWITCH)
  | .XORSWITCH => ({ st with switches := st.switches ++ [mkSwitchDev hi] },
               .devAppended .XORSWITCH)
  | .ANY => (st, .warnUnknownAccType)

/-- The `for acc in accessories` loop of the `home-model` handler: parse
the entry, append the home item, append the typed device, and set the
home-model-ready signal — inside every iteration, as in the source. -/
def homeModelLoop (st : Master) : List Json → Except PyErr (Master × List Ev)
  | [] => .ok (st, [])
  | a :: rest =>
      match CSHomeItemFromJson a with
      | .error e => .error e
      | .ok (hi, pevs) =>
          let st1 := { st with home_items := st.home_items ++ [hi] }
          let (st2, devEv) := accKindDev st1 hi
          let st3 := { st2 with homeModelReady := true }
          match homeModelLoop st3 rest with
          | .error e => .error e
          | .ok (st4, evs) =>
              .ok (st4, pevs ++ [.itemAppended, devEv, .signalHomeModelReady] ++ evs)

/-- `CSHomeMaster.handleIncomingHomeModel`: clear the home-item list,
then process every accessory entry. -/
def handleIncomingHomeModel (st : Master) (jrpl : Json) :
    Except PyErr (Master × List Ev) :=
  let st0 := { st with home_items := [] }
  match jrpl.pyGet "accessories" with
  | .error e => .error e
  | .ok accessories =>
      if accessories.isNull then .ok (st0, [.logInvalidHomeModel])
      else
        match accessories.pyIter with
        | .error e => .error e
        | .ok accs => homeModelLoop st0 accs

/-- The `for light in self._lights` loop of the `wled-diag` handler:
update the first light owning a module with the given serial number. -/
def wledDiagLights : List CSLightDev → Json → Json → Json →
    Option (List CSLightDev)
  | [], _, _, _ => none
  | l :: rest, sn, vled, tntc =>
      match l.homeItem.get_module_by_sn sn with
      | some _ => some (l.updateDiag vled tntc :: rest)
      | none =>
          match wledDiagLights rest sn vled tntc with
          | some rest' => some (l :: rest')
          | none => none

/-- `CSHomeMaster.handleIncomingWLedDiag`. -/
def handleIncomingWLedDiag (st : Master) (jrpl : Json) :
    Except PyErr (Master × List Ev) :=
  match jrpl.pyGet "sn" with
  | .error e => .error e
  | .ok sn =>
    match jrpl.pyGet "vLed" with
    | .error e => .error e
    | .ok vled =>
      match jrpl.pyGet "tNtc" with
      | .error e => .error e
      | .ok tntc =>
        if sn.isNull || vled.isNull || tntc.isNull then
          .ok (st, [.logInvalidWLedDiag])
        else
          match wledDiagLights st.lights sn vled tntc with
          | some lights' => .ok ({ st with lights := lights' }, [])
          | none => .ok (st, [])

/-- The `for mod in modules` loop of the `module-list` handler: record
each hardware module, and construct a control-module device for any
entry with a positive `lbusCount`. -/
def moduleListLoop (st : Master) : List Json → Except PyErr Master
  | [] => .ok st
  | modJ :: rest =>
      match CSModuleFromJson modJ with
      | .error e => .error e
      | .ok module =>
          let st1 := { st with hwModules := st.hwModules ++ [module] }
          match modJ.pyContains "lbusCount" with
          | .error e => .error e
          | .ok has =>
              if !has then moduleListLoop st1 rest
              else
                match modJ.pySubscript "lbusCount" with
                | .error e => .error e
                | .ok lbusCountJ =>
                  match lbusCountJ.toNum? with
                  | none => .error .typeError
                  | some q =>
                      if q > 0 then
                        match lbusCountJ.toInt? with
                        | none => .error .typeError
                        | some n =>
                            moduleListLoop
                              { st1 with ctrlModDevs := st1.ctrlModDevs ++
                                  [⟨module, List.replicate n.toNat (.num 0), 0⟩] }
                              rest
                      else moduleListLoop st1 rest

/-- `CSHomeMaster.handleIncomingModuleList`: record the modules, then
set the module-list-ready signal (after the loop). -/
def handleIncomingModuleList (st : Master) (jrpl : Json) :
    Except PyErr (Master × List Ev) :=
  match jrpl.pyGet "modules" with
  | .error e => .error e
  | .ok modules =>
      if modules.isNull then .ok (st, [.logInvalidModuleList])
      else
        match modules.pyIter with
        | .error e => .error e
        | .ok modJs =>
          match moduleListLoop st modJs with
          | .error e => .error e
          | .ok st' =>
              .ok ({ st' with moduleListReady := true }, [.signalModuleListReady])

/-- The `for ctrlModDev in self._ctrlModDevs` loop of the `lbus-status`
handler: on the first module with a matching serial number, set the
channel reading, and publish when the index is the last channel. -/
def lbusStatusLoop : List CSLightsCtrlModDev → Json → Json → Json →
    Except PyErr (Option (List CSLightsCtrlModDev))
  | [], _, _, _ => .ok none
  | d :: rest, sn, lbusIdx, current =>
      if Json.pyEq d.module.sn sn then
        match d.set_lb_current lbusIdx current with
        | .error e => .error e
        | .ok d1 =>
            let d2 :=
              if Json.pyEq lbusIdx (.num ((d1.get_lb_count : ℚ) - 1)) then
                d1.trigger_publish_updates
              else d1
            .ok (some (d2 :: rest))
      else
        match lbusStatusLoop rest sn lbusIdx current with
        | .error e => .error e
        | .ok (some rest') => .ok (some (d :: rest'))
        | .ok none => .ok none

/-- `CSHomeMaster.handleIncomingLBusStatus`: validate the essential
fields (with Python short-circuit semantics), then update the matching
control module. -/
def handleIncomingLBusStatus (st : Master) (jrpl : Json) :
    Except PyErr (Master × List Ev) :=
  match jrpl.pyGet "module" with
  | .error e => .error e
  | .ok mod_json =>
      if !mod_json.pyTruthy then .ok (st, [.logInvalidLBusStatus])
      else
        match mod_json.pyContains "sn" with
        | .error e => .error e
        | .ok hasSn =>
          if !hasSn then .ok (st, [.logInvalidLBusStatus])
          else
            match jrpl.pyContains "lbusIndex" with
            | .error e => .error e
            | .ok hasIdx =>
              if !hasIdx then .ok (st, [.logInvalidLBusStatus])
              else
                match jrpl.pyContains "current" with
                | .error e => .error e
                | .ok hasCur =>
                  if !hasCur then .ok (st, [.logInvalidLBusStatus])
                  else
                    match mod_json.pySubscript "sn" with
                    | .error e => .error e
                    | .ok sn =>
                      match jrpl.pySubscript "lbusIndex" with
                      | .error e => .error e
                      | .ok lbusIdx =>
                        match jrpl.pySubscript "current" with
                        | .error e => .error e
                        | .ok current =>
                          match lbusStatusLoop st.ctrlModDevs sn lbusIdx current with
                          | .error e => .error e
                          | .ok (some devs') =>
                              .ok ({ st with ctrlModDevs := devs' }, [])
                          | .ok none => .ok (st, [])

/-- `CSHomeMaster.parseIncomingData`: the decode-and-dispatch entry
point.  The argument is the outcome of `json.loads` on the inbound
line: `none` when parsing raised `JSONDecodeError` (which the source
catches, logs and absorbs), otherwise the decoded value, dispatched on
its `rpl-type` field. -/
def parseIncomingData (st : Master) (r : Option Json) :
    Except PyErr (Master × List Ev) :=
  match r with
  | none => .ok (st, [.logParseError])
  | some jrpl =>
      match jrpl.pyGet "rpl-type" with
      | .error e => .error e
      | .ok t =>
          if Json.pyEq t (.str "acc-state") then handleIncomingAccState st jrpl
          else if Json.pyEq t (.str "home-model") then handleIncomingHomeModel st jrpl
          else if Json.pyEq t (.str "wled-diag") then handleIncomingWLedDiag st jrpl
          else if Json.pyEq t (.str "module-list") then handleIncomingModuleList st jrpl
          else if Json.pyEq t (.str "lbus-status") then handleIncomingLBusStatus st jrpl
          else .ok (st, [.logUnknownJson])

/-! ## Outgoing commands and the read loop (`cshome_master.py`) -/

/-- JSON string escaping as applied by `json.dumps` to the characters
appearing in this protocol. -/
def jsonEscape (s : String) : String :=
  String.join (s.toList.map (fun c =>
    if c = '"' then "\\\""
    else if c = '\\' then "\\\\"
    else if c = '\n' then "\\n"
    else if c = '\r' then "\\r"
    else if c = '\t' then "\\t"
    else String.singleton c))

/-- Rendering of a JSON number.  Integral values render as Python ints
do; the rendering of non-integral values is a placeholder (every
numeric field serialized by the outgoing commands proved about below is
integral) and is newline-free either way. -/
def ratRepr (q : ℚ) : String :=
  if q.den = 1 then toString q.num
  else toString q.num ++ "/" ++ toString q.den

mutual

/-- `json.dumps` with its default separators: `", "` between items and
`": "` after keys. -/
def dumps : Json → String
  | .null => "null"
  | .bool b => if b then "true" else "false"
  | .num q => ratRepr q
  | .str s => "\"" ++ jsonEscape s ++ "\""
  | .arr xs => "[" ++ dumpsList xs ++ "]"
  | .obj kvs => "\x7b" ++ dumpsKVs kvs ++ "\x7d"

/-- Array elements of `json.dumps`. -/
def dumpsList : List Json → String
  | [] => ""
  | [x] => dumps x
  | x :: xs => dumps x ++ ", " ++ dumpsList xs

/-- Object members of `json.dumps`. -/
def dumpsKVs : List (String × Json) → String
  | [] => ""
  | [(k, v)] => "\"" ++ jsonEscape k ++ "\": " ++ dumps v
  | (k, v) :: kvs => "\"" ++ jsonEscape k ++ "\": " ++ dumps v ++ ", " ++ dumpsKVs kvs

end

/-- Python `str()` of a decoded JSON value, as used for `str(accId)`.
Ints render as their digits; containers reuse the JSON rendering (no
command proved about below serializes one). -/
def pyStr : Json → String
  | .null => "None"
  | .bool b => if b then "True" else "False"
  | .num q => ratRepr q
  | .str s => s
  | .arr xs => dumps (.arr xs)
  | .obj kvs => dumps (.obj kvs)

/-- `CSHomeMaster.setAccBrightnessValue`: serialize the `AccSetValue`
command and write it when a writer exists; the write is
`data_str.encode()` — the serialized object with no terminator
appended.  Returns the success flag and the written chunks. -/
def setAccBrightnessValue (st : Master) (accId : Json) (value : Json) :
    Bool × List String :=
  let data_str := dumps (.obj [("command", .str "AccSetValue"),
                               ("acc-id", .str (pyStr accId)),
                               ("evt-type", .str "set-brightness"),
                               ("evt-value", value)])
  if st.writerPresent then (true, [data_str]) else (false, [])

/-- `CSHomeMaster.setAccBoolValue`. -/
def setAccBoolValue (st : Master) (accId : Json) (value : Bool) :
    Bool × List String :=
  let data_str := dumps (.obj [("command", .str "AccSetValue"),
                               ("acc-id", .str (pyStr accId)),
                               ("evt-type", .str "set-bool"),
                               ("evt-value", .bool value)])
  if st.writerPresent then (true, [data_str]) else (false, [])

/-- `CSHomeMaster.setAccPositionValue`. -/
def setAccPositionValue (st : Master) (accId : Json) (value : Json) :
    Bool × List String :=
  let data_str := dumps (.obj [("command", .str "AccSetValue"),
                               ("acc-id", .str (pyStr accId)),
                               ("evt-type", .str "set-position"),
                               ("evt-value", value)])
  if st.writerPresent then (true, [data_str]) else (false, [])

/-- `CSHomeMaster.updateAccessoryReq`: the `GetAccState` state-refresh
command for one accessory. -/
def updateAccessoryReq (st : Master) (accId : Json) : Bool × List String :=
  let data_str := dumps (.obj [("command", .str "GetAccState"),
                               ("acc-id", .str (pyStr accId))])
  if st.writerPresent then (true, [data_str]) else (false, [])

/-- `CSHomeMaster.readHomeModel`, up to its write: serialize
`GetHomeModel` and write it when a writer exists.  The subsequent wait
on the home-model-ready event is synchronization and carries no state
effect. -/
def readHomeModel (st : Master) : Bool × List String :=
  let data_str := dumps (.obj [("command", .str "GetHomeModel")])
  if st.writerPresent then (true, [data_str]) else (false, [])

/-- `CSHomeMaster.getModuleList`, up to its write. -/
def getModuleList (st : Master) : Bool × List String :=
  let data_str := dumps (.obj [("command", .str "GetModules")])
  if st.writerPresent then (true, [data_str]) else (false, [])

/-- `CSHomeMaster.update_all_accessories`: one `GetAccState` request per
known home item. -/
def update_all_accessories (st : Master) : List String :=
  st.home_items.flatMap (fun hi => (updateAccessoryReq st hi.accessory.id).2)

/-- `CSHomeMaster.devs_publish_update`: publish once on every light,
blind, relay and wall switch. -/
def devs_publish_update (st : Master) : Master :=
  { st with
    lights := st.lights.map CSLightDev.publish_updates,
    blinds := st.blinds.map CSBlindDev.publish_updates,
    relays := st.relays.map CSRelayDev.publish_updates,
    switches := st.switches.map CSWallSwitchDev.publish_updates }

/-- The successful branch of `CSHomeMaster.initConnection`: store the
reader/writer pair, mark the master online and signal connection
readiness. -/
def initConnectionOk (st : Master) : Master :=
  { st with master_online := true, tcpConnectionReady := true,
            writerPresent := true }

/-- One empty-read iteration of `CSHomeMaster.async_task`: the peer
closed the connection, so mark the master offline, publish an update on
every device, and — when the reconnect attempt succeeds — request a
state refresh for every known accessory.  Returns the new state and the
commands written. -/
def emptyReadStep (st : Master) (reconnectOk : Bool) : Master × List String :=
  let st1 := devs_publish_update { st with master_online := false }
  if reconnectOk then
    let st2 := initConnectionOk st1
    (st2, update_all_accessories st2)
  else (st1, [])

/-! ## Boundary conversions (`light.py`, `cover.py`) -/

/-- `hass_to_cs_brightness`: Home Assistant brightness (0–255) to the
normalized csLights brightness. -/
def hass_to_cs_brightness (hass_brightness : ℤ) : ℚ :=
  (hass_brightness : ℚ) / 255

/-- `cs_to_hass_brightness`: normalized brightness to Home Assistant
brightness, truncated toward zero as Python `int()` does. -/
def cs_to_hass_brightness (cs_brightness : ℚ) : ℤ :=
  if 0 ≤ cs_brightness then (cs_brightness * 255).floor
  else (cs_brightness * 255).ceil

/-- `hass_to_cs_position`: Home Assistant cover position (0–100) to the
normalized csLights position. -/
def hass_to_cs_position (hass_pos : ℤ) : ℚ :=
  (hass_pos : ℚ) / 100

/-- `cs_to_hass_position`: normalized position to Home Assistant
position, truncated toward zero as Python `int()` does. -/
def cs_to_hass_position (cs_pos : ℚ) : ℤ :=
  if 0 ≤ cs_pos then (cs_pos * 100).floor else (cs_pos * 100).ceil

/-! ## Concrete fixtures used by the claim instances -/

/-- A concrete accessory location. -/
def sampleLoc : AccessoryLocation :=
  ⟨.str "room", .str "room", .num 0, .num 0, .num 0⟩

/-- A concrete home item of a given id and kind, with no services. -/
def sampleItem (i : ℚ) (ty : AccType) : CSHomeItem :=
  ⟨⟨.num i, .str "dev", ty, sampleLoc⟩, []⟩

/-- A concrete light device with a chosen online flag. -/
def sampleLight (i : ℚ) (onl : Bool) : CSLightDev :=
  { homeItem := sampleItem i .LIGHT, online := onl }

/-- A concrete hardware module. -/
def sampleModule : CSModule :=
  ⟨.str "00:11", .str "sn1", .str "ctrl", .CSLIGHT_CTRL, .num 1⟩

/-- A decoded `acc-state` message carrying both `brightness` and `on`. -/
def accStateMsg (i b : ℚ) : Json :=
  .obj [("rpl-type", .str "acc-state"), ("acc-id", .num i),
        ("valid", .bool true), ("brightness", .num b), ("on", .bool true)]

/-- A decoded `home-model` accessory entry with a raw type tag and no
services. -/
def accJson (i ty : ℚ) : Json :=
  .obj [("accessory", .obj [("id", .num i), ("name", .str "dev"),
          ("type", .num ty),
          ("location", .obj [("room", .str "room"), ("zone", .str "room"),
            ("pos_x", .num 0), ("pos_y", .num 0), ("pos_z", .num 0)])]),
        ("services", .arr [])]

/-- A decoded `home-model` message. -/
def homeModelMsg (accs : List Json) : Json :=
  .obj [("rpl-type", .str "home-model"), ("accessories", .arr accs)]

/-! ## C1 — malformed input at the decode boundary -/

/-- C1, counterexample: the inbound line `42` is valid JSON but not an
object; `json.loads` succeeds and the subsequent
`jrpl.get("rpl-type")` raises `AttributeError` past the decode
boundary, so the claim that no exception escapes for any line that is
not a well-formed protocol object is false. -/
theorem parseIncomingData_nonobject_raises :
    parseIncomingData emptyMaster (some (.num 42)) =
      .error .attributeError := rfl

/-- C1, amended: for every inbound line that fails JSON parsing,
`parseIncomingData` logs the parse error and returns normally, leaving
the connection state and every device collection unchanged. -/
theorem parseIncomingData_parse_failure_unchanged (st : Master) :
    parseIncomingData st none = .ok (st, [.logParseError]) := rfl

/-! ## C4 — outgoing command framing -/

/-- C4: the outgoing writes are the bare `json.dumps` serialization
(with its default `", "` and `": "` separators) and carry no trailing
newline, although the protocol's wire format is one JSON object per
newline-terminated line: shown here by evaluating the `GetHomeModel`,
`GetModules`, `GetAccState` and `AccSetValue`(set-bool) writers with a
writer present and checking that no written chunk contains a newline
character. -/
theorem outgoing_writes_lack_newline :
    (readHomeModel { emptyMaster with writerPresent := true }) =
      (true, ["\x7b\"command\": \"GetHomeModel\"\x7d"]) ∧
    (getModuleList { emptyMaster with writerPresent := true }) =
      (true, ["\x7b\"command\": \"GetModules\"\x7d"]) ∧
    (updateAccessoryReq { emptyMaster with writerPresent := true } (.num 5)) =
      (true, ["\x7b\"command\": \"GetAccState\", \"acc-id\": \"5\"\x7d"]) ∧
    (setAccBoolValue { emptyMaster with writerPresent := true } (.num 7) true) =
      (true, ["\x7b\"command\": \"AccSetValue\", \"acc-id\": \"7\", \"evt-type\": \"set-bool\", \"evt-value\": true\x7d"]) ∧
    (("\x7b\"command\": \"GetHomeModel\"\x7d" : String).data.all
      (fun c => !(c == '\n')) = true) ∧
    (("\x7b\"command\": \"GetModules\"\x7d" : String).data.all
      (fun c => !(c == '\n')) = true) ∧
    (("\x7b\"command\": \"GetAccState\", \"acc-id\": \"5\"\x7d" : String).data.all
      (fun c => !(c == '\n')) = true) ∧
    (("\x7b\"command\": \"AccSetValue\", \"acc-id\": \"7\", \"evt-type\": \"set-bool\", \"evt-value\": true\x7d" : String).data.all
      (fun c => !(c == '\n')) = true) := by
  refine ⟨rfl, rfl, rfl, rfl, ?_, ?_, ?_, ?_⟩ <;> decide

/-! ## C5 — normalized value ranges -/

/-- C5, counterexample: the stored brightness is whatever the inbound
`acc-state` message carried — the message value `7.5` is written to the
light's `current_brightness` unclamped, so device state does not always
stay within `[0.0, 1.0]`. -/
theorem stored_brightness_escapes_range :
    (Except.map (fun p => p.1.lights.map (fun l => l.current_brightness))
      (parseIncomingData { emptyMaster with lights := [sampleLight 5 true] }
        (some (accStateMsg 5 (15 / 2))))) = .ok [.num (15 / 2)] ∧
    ¬ ((15 / 2 : ℚ) ≤ 1) := ⟨rfl, by norm_num⟩

/-- C5, amended: the boundary conversion functions map the external
integer scales into the normalized range — `hass_to_cs_brightness`
sends `0..255` into `[0, 1]` and `hass_to_cs_position` sends `0..100`
into `[0, 1]` — but they divide without clamping, and values stored
from inbound messages are not clamped either. -/
theorem conversion_functions_bounded (n : ℤ) :
    (0 ≤ n → n ≤ 255 →
      0 ≤ hass_to_cs_brightness n ∧ hass_to_cs_brightness n ≤ 1) ∧
    (0 ≤ n → n ≤ 100 →
      0 ≤ hass_to_cs_position n ∧ hass_to_cs_position n ≤ 1) := by
  constructor
  · intro h0 h255
    constructor
    · exact div_nonneg (by exact_mod_cast h0) (by norm_num)
    · rw [hass_to_cs_brightness, div_le_one (by norm_num)]
      exact_mod_cast h255
  · intro h0 h100
    constructor
    · exact div_nonneg (by exact_mod_cast h0) (by norm_num)
    · rw [hass_to_cs_position, div_le_one (by norm_num)]
      exact_mod_cast h100

/-- C5, witness: the bounds hold at the concrete conversions of 127 of
255 and 50 of 100. -/
theorem conversion_functions_bounded_witness :
    (0 ≤ hass_to_cs_brightness 127 ∧ hass_to_cs_brightness 127 ≤ 1) ∧
    (0 ≤ hass_to_cs_position 50 ∧ hass_to_cs_position 50 ≤ 1) :=
  ⟨(conversion_functions_bounded 127).1 (by norm_num) (by norm_num),
   (conversion_functions_bounded 50).2 (by norm_num) (by norm_num)⟩

/-! ## C10 — out-of-range light-bus channel access -/

/-- C10: for any control-module device with `K` channels and any
channel index `k ≥ K`, `set_lb_current` returns the device unchanged
(all channel readings intact, publish counter untouched, so no callback
fires) and `get_lb_current` returns `None`; neither raises. -/
theorem lb_current_out_of_range (d : CSLightsCtrlModDev) (k : ℕ) (c : Json)
    (h : d.lbCurrents.length ≤ k) :
    d.set_lb_current (.num k) c = .ok d ∧
    d.get_lb_current (.num k) = .ok .null := by
  have hq : ¬ ((k : ℚ) < (d.lbCurrents.length : ℚ)) := by
    rw [not_lt]
    exact_mod_cast h
  constructor
  · simp [CSLightsCtrlModDev.set_lb_current, Json.toNum?, hq]
  · simp [CSLightsCtrlModDev.get_lb_current, Json.toNum?, hq]

/-- C10, witness: a two-channel module with channel index 5. -/
theorem lb_current_out_of_range_witness :
    (⟨sampleModule, [.num 0, .num 0], 0⟩ : CSLightsCtrlModDev).set_lb_current
        (.num 5) (.num 1) = .ok ⟨sampleModule, [.num 0, .num 0], 0⟩ ∧
    (⟨sampleModule, [.num 0, .num 0], 0⟩ : CSLightsCtrlModDev).get_lb_current
        (.num 5) = .ok .null :=
  lb_current_out_of_range ⟨sampleModule, [.num 0, .num 0], 0⟩ 5 (.num 1)
    (by decide)

/-! ## C2 — disconnect handling and resynchronization -/

/-- Mapping a singleton-producing function over a list and flattening is
the same as mapping the element. -/
theorem flatMap_single {α β : Type} (l : List α) (f : α → β) :
    l.flatMap (fun x => [f x]) = l.map f := by
  induction l with
  | nil => rfl
  | cons x xs ih => simp [List.flatMap_cons, ih]

/-- C2, counterexample: after an empty read the device online flags are
left untouched — a light that was online is still online once the
empty-read iteration (including a successful reconnect) completes, so
the claim that every device's online flag becomes false is false. -/
theorem emptyRead_leaves_device_online :
    ((emptyReadStep { emptyMaster with
        home_items := [sampleItem 5 .LIGHT],
        lights := [sampleLight 5 true] } true).1.lights.map
      (fun l => l.online)) = [true] := rfl

/-- C2, amended: an empty read sets the connection online flag to
false and publishes one update on every light, blind, relay and wall
switch (each device's dispatcher fires at least once; the device online
flags themselves are left unchanged), and after a successful reconnect
one `GetAccState` command is written for every previously known
accessory id, in home-item order. -/
theorem emptyRead_offline_publish_resync (st : Master) :
    (devs_publish_update { st with master_online := false }).master_online
        = false ∧
    (devs_publish_update { st with master_online := false }).lights.map
        (fun l => l.online) = st.lights.map (fun l => l.online) ∧
    (devs_publish_update { st with master_online := false }).blinds.map
        (fun b => b.online) = st.blinds.map (fun b => b.online) ∧
    (devs_publish_update { st with master_online := false }).relays.map
        (fun r => r.online) = st.relays.map (fun r => r.online) ∧
    (devs_publish_update { st with master_online := false }).switches.map
        (fun s => s.online) = st.switches.map (fun s => s.online) ∧
    (devs_publish_update { st with master_online := false }).lights.map
        (fun l => l.publishCount)
      = st.lights.map (fun l => l.publishCount + 1) ∧
    (devs_publish_update { st with master_online := false }).blinds.map
        (fun b => b.publishCount)
      = st.blinds.map (fun b => b.publishCount + 1) ∧
    (devs_publish_update { st with master_online := false }).relays.map
        (fun r => r.publishCount)
      = st.relays.map (fun r => r.publishCount + 1) ∧
    (devs_publish_update { st with master_online := false }).switches.map
        (fun s => s.publishCount)
      = st.switches.map (fun s => s.publishCount + 1) ∧
    (emptyReadStep st true).2 = st.home_items.map (fun hi =>
        dumps (.obj [("command", .str "GetAccState"),
                     ("acc-id", .str (pyStr hi.accessory.id))])) := by
  refine ⟨rfl, ?_, ?_, ?_, ?_, ?_, ?_, ?_, ?_, ?_⟩
  · simp [devs_publish_update, List.map_map, CSLightDev.publish_updates,
      Function.comp]
  · simp [devs_publish_update, List.map_map, CSBlindDev.publish_updates,
      Function.comp]
  · simp [devs_publish_update, List.map_map, CSRelayDev.publish_updates,
      Function.comp]
  · simp [devs_publish_update, List.map_map, CSWallSwitchDev.publish_updates,
      Function.comp]
  · simp [devs_publish_update, List.map_map, CSLightDev.publish_updates,
      Function.comp]
  · simp [devs_publish_update, List.map_map, CSBlindDev.publish_updates,
      Function.comp]
  · simp [devs_publish_update, List.map_map, CSRelayDev.publish_updates,
      Function.comp]
  · simp [devs_publish_update, List.map_map, CSWallSwitchDev.publish_updates,
      Function.comp]
  · simp [emptyReadStep, update_all_accessories, updateAccessoryReq,
      initConnectionOk, devs_publish_update, flatMap_single]

/-! ## C3 — combined brightness and state update -/

/-- The lights loop of the `acc-state` handler updates the first
matching light and keeps every light before and after it unchanged. -/
theorem accStateLights_first_match (pre post : List CSLightDev)
    (l : CSLightDev) (accId b o : Json)
    (hpre : ∀ l' ∈ pre, Json.pyEq l'.homeItem.accessory.id accId = false)
    (hl : Json.pyEq l.homeItem.accessory.id accId = true) :
    accStateLights (pre ++ l :: post) accId b o =
      some (pre ++ accStateApplyLight l b o :: post) := by
  induction pre with
  | nil => simp [accStateLights, hl]
  | cons x xs ih =>
      have hx := hpre x (by simp)
      have ih' := ih (fun l' hmem => hpre l' (by simp [hmem]))
      simp [accStateLights, hx, ih']

/-- On an already-online light with both fields present, the per-light
body performs the single combined update. -/
theorem accStateApplyLight_combined (l : CSLightDev) (b o : Json)
    (hon : l.online = true) (hb : b.isNull = false) (ho : o.isNull = false) :
    accStateApplyLight l b o =
      { l with current_brightness := b, current_state := o,
               publishCount := l.publishCount + 1 } := by
  simp [accStateApplyLight, CSLightDev.set_online, hon, hb, ho,
    CSLightDev.set_current_brightness_and_state, CSLightDev.publish_updates]

/-- C3, counterexample: when the matched light was offline, the
`set_online(True)` call publishes once and the combined update
publishes again — two dispatcher notifications, not one, so the claim
does not hold for every known light. -/
theorem accState_offline_double_publish :
    (Except.map (fun p => p.1.lights.map (fun l => l.publishCount))
      (parseIncomingData { emptyMaster with lights := [sampleLight 5 false] }
        (some (accStateMsg 5 (3 / 4))))) = .ok [2] := rfl

/-- C3, amended: processing an `acc-state` message whose id matches a
known, already-online light and which carries non-null `brightness` and
`on` fields (with `valid` present) stores both values through the
combined update path and publishes exactly one dispatcher
notification; lights preceding the match are untouched. -/
theorem accState_combined_single_publish (st : Master)
    (pre post : List CSLightDev) (l : CSLightDev) (accId b o : Json)
    (hlights : st.lights = pre ++ l :: post)
    (hpre : ∀ l' ∈ pre, Json.pyEq l'.homeItem.accessory.id accId = false)
    (hl : Json.pyEq l.homeItem.accessory.id accId = true)
    (hon : l.online = true) (ha : accId.isNull = false)
    (hb : b.isNull = false) (ho : o.isNull = false) :
    parseIncomingData st
      (some (.obj [("rpl-type", .str "acc-state"), ("acc-id", accId),
                   ("valid", .bool true), ("brightness", b), ("on", o)])) =
      .ok ({ st with lights := pre ++
              { l with current_brightness := b, current_state := o,
                       publishCount := l.publishCount + 1 } :: post }, []) := by
  have hv : (Json.bool true).isNull = false := rfl
  simp only [parseIncomingData, handleIncomingAccState, Json.pyGet,
    List.lookup, String.reduceBEq, Json.pyEq, ha, hv, hlights,
    Bool.false_or, Bool.or_false, if_true, if_false, Bool.false_eq_true,
    accStateLights_first_match pre post l accId b o hpre hl,
    accStateApplyLight_combined l b o hon hb ho]

/-- C3, witness: a known online light with id 5 receiving brightness
0.75 and on=true ends with both values stored and one publish. -/
theorem accState_combined_single_publish_witness :
    parseIncomingData { emptyMaster with lights := [sampleLight 5 true] }
      (some (.obj [("rpl-type", .str "acc-state"), ("acc-id", .num 5),
                   ("valid", .bool true), ("brightness", .num (3 / 4)),
                   ("on", .bool true)])) =
      .ok ({ emptyMaster with lights := [{ sampleLight 5 true with
              current_brightness := .num (3 / 4), current_state := .bool true,
              publishCount := 1 }] }, []) :=
  accState_combined_single_publish
    { emptyMaster with lights := [sampleLight 5 true] } [] []
    (sampleLight 5 true) (.num 5) (.num (3 / 4)) (.bool true)
    rfl (by intro l' hmem; cases hmem) (by decide) rfl rfl rfl rfl

/-! ## C6 — home-model ready signal timing -/

/-- C6: on a `home-model` message with two accessories the ready signal
is set during the first loop iteration — the event trace interleaves a
`signalHomeModelReady` between the first and the second accessory
append, because `self._homeModelReady.set()` sits inside the accessory
loop.  The claim that the signal is never set before the last accessory
entry has been processed is therefore false on the code, while the
specification's reading (set only after every entry is parsed and its
device appended) is the evident intent of a one-shot readiness
signal. -/
theorem homeModelReady_set_inside_loop :
    (Except.map (fun p => p.2)
      (handleIncomingHomeModel emptyMaster
        (homeModelMsg [accJson 1 1, accJson 2 1]))) =
      .ok [.itemAppended, .devAppended .LIGHT, .signalHomeModelReady,
           .itemAppended, .devAppended .LIGHT, .signalHomeModelReady] := rfl

/-! ## C7 / C8 — home-model population -/

/-- The light devices a `home-model` message contributes: one fresh
`CSLightDev` per LIGHT-typed accessory, in message order. -/
def mkLightsOf (items : List CSHomeItem) : List CSLightDev :=
  (items.filter (fun hi => hi.accessory.type == AccType.LIGHT)).map mkLightDev

/-- The blind devices a `home-model` message contributes. -/
def mkBlindsOf (items : List CSHomeItem) : List CSBlindDev :=
  (items.filter (fun hi => hi.accessory.type == AccType.WINDOWBLIND)).map mkBlindDev

/-- The relay devices a `home-model` message contributes. -/
def mkRelaysOf (items : List CSHomeItem) : List CSRelayDev :=
  (items.filter (fun hi => hi.accessory.type == AccType.RELAY)).map mkRelayDev

/-- The wall-switch devices a `home-model` message contributes (SWITCH
and XORSWITCH accessories). -/
def mkSwitchesOf (items : List CSHomeItem) : List CSWallSwitchDev :=
  (items.filter (fun hi => hi.accessory.type == AccType.SWITCH
      || hi.accessory.type == AccType.XORSWITCH)).map mkSwitchDev

/-- The per-accessory event the home-model loop emits: a device append
for the five known kinds, an unknown-type warning for `ANY`. -/
def devEvOf (hi : CSHomeItem) : Ev :=
  match hi.accessory.type with
  | .LIGHT => .devAppended .LIGHT
  | .WINDOWBLIND => .devAppended .WINDOWBLIND
  | .RELAY => .devAppended .RELAY
  | .SWITCH => .devAppended .SWITCH
  | .XORSWITCH => .devAppended .XORSWITCH
  | .ANY => .warnUnknownAccType

/-- The event trace of the home-model loop over the parsed accessory
entries. -/
def loopEvsOf : List (CSHomeItem × List Ev) → List Ev
  | [] => []
  | (hi, pevs) :: rest =>
      pevs ++ [.itemAppended, devEvOf hi, .signalHomeModelReady] ++ loopEvsOf rest

/-- Parsing every accessory entry of a `home-model` message, in order,
propagating the first failure. -/
def parseAllAccs : List Json → Except PyErr (List (CSHomeItem × List Ev))
  | [] => .ok []
  | a :: rest =>
      match CSHomeItemFromJson a with
      | .error e => .error e
      | .ok p =>
          match parseAllAccs rest with
          | .error e => .error e
          | .ok ps => .ok (p :: ps)

/-- When every accessory entry parses, the home-model loop appends to
each per-kind collection exactly the typed devices of that kind, in
order, appends the home items, sets the ready flag whenever the message
is non-empty, and emits the interleaved per-accessory trace. -/
theorem homeModelLoop_ok (accs : List Json)
    (pairs : List (CSHomeItem × List Ev))
    (h : parseAllAccs accs = .ok pairs) (st : Master) :
    homeModelLoop st accs = .ok
      ({ st with
          home_items := st.home_items ++ pairs.map Prod.fst,
          lights := st.lights ++ mkLightsOf (pairs.map Prod.fst),
          blinds := st.blinds ++ mkBlindsOf (pairs.map Prod.fst),
          relays := st.relays ++ mkRelaysOf (pairs.map Prod.fst),
          switches := st.switches ++ mkSwitchesOf (pairs.map Prod.fst),
          homeModelReady := st.homeModelReady || !accs.isEmpty },
        loopEvsOf pairs) := by
  induction accs generalizing pairs st with
  | nil =>
      rw [parseAllAccs] at h
      cases h
      simp [homeModelLoop, mkLightsOf, mkBlindsOf, mkRelaysOf, mkSwitchesOf,
        loopEvsOf]
  | cons a rest ih =>
      rw [parseAllAccs] at h
      cases hfa : CSHomeItemFromJson a with
      | error e => rw [hfa] at h; exact Except.noConfusion h
      | ok p =>
          rw [hfa] at h
          cases hrest : parseAllAccs rest with
          | error e => rw [hrest] at h; exact Except.noConfusion h
          | ok ps =>
              rw [hrest] at h
              cases h
              obtain ⟨hi, pevs⟩ := p
              have ih' := ih ps hrest
              rw [homeModelLoop, hfa]
              cases hty : hi.accessory.type <;>
                simp only [accKindDev, hty, devEvOf, loopEvsOf] <;>
                rw [ih'] <;>
                simp [mkLightsOf, mkBlindsOf, mkRelaysOf, mkSwitchesOf,
                  List.filter_cons, hty, loopEvsOf, devEvOf]

/-- C7, counterexample: an accessory whose raw type tag (7) is not a
valid `AccType` value makes the enum constructor raise `ValueError` out
of the home-model handler — processing such a message is fatal, not
logged-and-skipped. -/
theorem unknown_raw_type_tag_raises :
    handleIncomingHomeModel emptyMaster (homeModelMsg [accJson 1 7]) =
      .error .valueError := rfl

/-- C7, amended: for a `home-model` message whose accessory entries all
decode (every type tag is a valid `AccType` value), processing from
empty per-kind collections never raises; each per-kind collection ends
with exactly the accessories of its kind in message order, and an
accessory whose decoded type is not a known kind (`ANY`) is logged with
an unknown-type warning and added to no per-kind collection. -/
theorem home_model_kind_partition (st : Master) (accs : List Json)
    (pairs : List (CSHomeItem × List Ev))
    (h : parseAllAccs accs = .ok pairs)
    (h1 : st.lights = []) (h2 : st.blinds = []) (h3 : st.relays = [])
    (h4 : st.switches = []) :
    handleIncomingHomeModel st (homeModelMsg accs) = .ok
      ({ st with
          home_items := pairs.map Prod.fst,
          lights := mkLightsOf (pairs.map Prod.fst),
          blinds := mkBlindsOf (pairs.map Prod.fst),
          relays := mkRelaysOf (pairs.map Prod.fst),
          switches := mkSwitchesOf (pairs.map Prod.fst),
          homeModelReady := st.homeModelReady || !accs.isEmpty },
        loopEvsOf pairs) := by
  rw [handleIncomingHomeModel]
  simp only [homeModelMsg, Json.pyGet, List.lookup, String.reduceBEq,
    Json.isNull, Json.pyIter]
  rw [homeModelLoop_ok accs pairs h]
  simp [h1, h2, h3, h4]

/-- C7, witness: a three-accessory model (LIGHT, ANY, RELAY) processed
from a fresh master: the light and relay land in their collections, the
ANY accessory is warned about and lands in none. -/
theorem home_model_kind_partition_witness :
    handleIncomingHomeModel emptyMaster
      (homeModelMsg [accJson 1 1, accJson 2 0, accJson 3 2]) = .ok
      ({ emptyMaster with
          home_items := [sampleItem 1 .LIGHT, sampleItem 2 .ANY,
                         sampleItem 3 .RELAY],
          lights := [mkLightDev (sampleItem 1 .LIGHT)],
          relays := [mkRelayDev (sampleItem 3 .RELAY)],
          homeModelReady := true },
        [.itemAppended, .devAppended .LIGHT, .signalHomeModelReady,
         .itemAppended, .warnUnknownAccType, .signalHomeModelReady,
         .itemAppended, .devAppended .RELAY, .signalHomeModelReady]) :=
  home_model_kind_partition emptyMaster
    [accJson 1 1, accJson 2 0, accJson 3 2]
    [(sampleItem 1 .LIGHT, []), (sampleItem 2 .ANY, []),
     (sampleItem 3 .RELAY, [])]
    rfl rfl rfl rfl rfl

/-- C8, counterexample: a second `home-model` message does not clear
the per-kind device collections — starting from a master that already
holds one light, a one-accessory model leaves the home-item list with
exactly the new entry but the lights collection with two devices, so
the per-kind collections do not contain exactly the entries of the new
message. -/
theorem second_model_retains_old_devices :
    (Except.map (fun p => (p.1.home_items.length, p.1.lights.length))
      (handleIncomingHomeModel
        { emptyMaster with
          home_items := [sampleItem 1 .LIGHT],
          lights := [sampleLight 1 true] }
        (homeModelMsg [accJson 2 1]))) = .ok (1, 2) := rfl

/-- C8, amended: the home-model handler clears only the home-item
collection before repopulating — afterwards the home items are exactly
the new message's entries, while every per-kind device collection is
the old collection with the new message's devices appended (devices
from the earlier model are retained). -/
theorem home_model_repopulates_appending (st : Master) (accs : List Json)
    (pairs : List (CSHomeItem × List Ev))
    (h : parseAllAccs accs = .ok pairs) :
    handleIncomingHomeModel st (homeModelMsg accs) = .ok
      ({ st with
          home_items := pairs.map Prod.fst,
          lights := st.lights ++ mkLightsOf (pairs.map Prod.fst),
          blinds := st.blinds ++ mkBlindsOf (pairs.map Prod.fst),
          relays := st.relays ++ mkRelaysOf (pairs.map Prod.fst),
          switches := st.switches ++ mkSwitchesOf (pairs.map Prod.fst),
          homeModelReady := st.homeModelReady || !accs.isEmpty },
        loopEvsOf pairs) := by
  rw [handleIncomingHomeModel]
  simp only [homeModelMsg, Json.pyGet, List.lookup, String.reduceBEq,
    Json.isNull, Json.pyIter]
  rw [homeModelLoop_ok accs pairs h]
  simp

/-- C8, witness: a master already holding light 1 processes a fresh
model containing light 2: the home items are exactly the new entry,
and the lights collection retains the old device ahead of the new
one. -/
theorem home_model_repopulates_appending_witness :
    handleIncomingHomeModel
      { emptyMaster with
        home_items := [sampleItem 1 .LIGHT],
        lights := [sampleLight 1 true] }
      (homeModelMsg [accJson 2 1]) = .ok
      ({ emptyMaster with
          home_items := [sampleItem 2 .LIGHT],
          lights := [sampleLight 1 true, mkLightDev (sampleItem 2 .LIGHT)],
          homeModelReady := true },
        [.itemAppended, .devAppended .LIGHT, .signalHomeModelReady]) :=
  home_model_repopulates_appending
    { emptyMaster with
      home_items := [sampleItem 1 .LIGHT],
      lights := [sampleLight 1 true] }
    [accJson 2 1] [(sampleItem 2 .LIGHT, [])] rfl

/-! ## C9 — module equality and duplicate rejection -/

mutual

/-- Python `==` is reflexive on decoded JSON values. -/
theorem Json.pyEq_refl : ∀ j : Json, Json.pyEq j j = true
  | .null => rfl
  | .bool b => by simp [Json.pyEq]
  | .num q => by simp [Json.pyEq]
  | .str s => by simp [Json.pyEq]
  | .arr xs => by
      rw [Json.pyEq]
      exact Json.pyEqList_refl xs
  | .obj kvs => by
      rw [Json.pyEq]
      exact Json.pyEqKVs_refl kvs

/-- Pointwise reflexivity on lists. -/
theorem Json.pyEqList_refl : ∀ xs : List Json, Json.pyEqList xs xs = true
  | [] => rfl
  | x :: xs => by
      rw [Json.pyEqList]
      simp [Json.pyEq_refl x, Json.pyEqList_refl xs]

/-- Pointwise reflexivity on key/value pair lists. -/
theorem Json.pyEqKVs_refl : ∀ kvs : List (String × Json),
    Json.pyEqKVs kvs kvs = true
  | [] => rfl
  | (k, v) :: kvs => by
      rw [Json.pyEqKVs]
      simp [Json.pyEq_refl v, Json.pyEqKVs_refl kvs]

end

/-- `CSModule.__eq__` is reflexive. -/
theorem CSModule.beq_refl (m : CSModule) : CSModule.beq m m = true := by
  cases m
  simp [CSModule.beq, Json.pyEq_refl]

/-- The kept-modules accumulator of `dedupLoop` only grows: everything
in the accumulator is in the result. -/
theorem dedupLoop_mono (ms : List CSModule) :
    ∀ (acc : List CSModule) (evs : List Ev) (x : CSModule), x ∈ acc →
      x ∈ (dedupLoop acc evs ms).1 := by
  induction ms with
  | nil =>
      intro acc evs x hx
      simpa [dedupLoop] using hx
  | cons m rest ih =>
      intro acc evs x hx
      rw [dedupLoop]
      by_cases hdup : acc.any (fun y => CSModule.beq y m) = true
      · rw [if_pos hdup]
        exact ih _ _ x hx
      · rw [if_neg hdup]
        exact ih _ _ x (by simp [hx])

/-- Starting from a pairwise-distinct accumulator, the kept list that
`dedupLoop` produces is pairwise distinct under `CSModule.beq`: no two
kept modules compare equal. -/
theorem dedupLoop_pairwise (ms : List CSModule) :
    ∀ (acc : List CSModule) (evs : List Ev),
      acc.Pairwise (fun a b => CSModule.beq a b = false) →
      (dedupLoop acc evs ms).1.Pairwise
        (fun a b => CSModule.beq a b = false) := by
  induction ms with
  | nil =>
      intro acc evs hacc
      simpa [dedupLoop] using hacc
  | cons m rest ih =>
      intro acc evs hacc
      rw [dedupLoop]
      by_cases hdup : acc.any (fun y => CSModule.beq y m) = true
      · rw [if_pos hdup]
        exact ih _ _ hacc
      · rw [if_neg hdup]
        refine ih _ _ ?_
        rw [List.pairwise_append]
        refine ⟨hacc, List.pairwise_singleton _ _, ?_⟩
        intro a ha b hb
        simp only [List.mem_singleton] at hb
        subst hb
        have hall := List.any_eq_true.not.mp hdup
        push_neg at hall
        simpa using hall a ha

/-- Every processed module is `beq`-represented in the kept list. -/
theorem dedupLoop_covers (ms : List CSModule) :
    ∀ (acc : List CSModule) (evs : List Ev) (m : CSModule), m ∈ ms →
      ∃ x ∈ (dedupLoop acc evs ms).1, CSModule.beq x m = true := by
  induction ms with
  | nil =>
      intro _ _ _ hm
      cases hm
  | cons m0 rest ih =>
      intro acc evs m hm
      rw [dedupLoop]
      by_cases hdup : acc.any (fun y => CSModule.beq y m0) = true
      · rw [if_pos hdup]
        rcases List.mem_cons.mp hm with hm0 | hmr
        · subst hm0
          obtain ⟨x, hx, hbx⟩ := List.any_eq_true.mp hdup
          exact ⟨x, dedupLoop_mono rest acc _ x hx, hbx⟩
        · exact ih acc _ m hmr
      · rw [if_neg hdup]
        rcases List.mem_cons.mp hm with hm0 | hmr
        · subst hm0
          exact ⟨m, dedupLoop_mono rest _ _ m (by simp), CSModule.beq_refl m⟩
        · exact ih (acc ++ [m0]) evs m hmr

/-- Each rejected duplicate is logged: the kept modules and the warning
events together account for every processed module. -/
theorem dedupLoop_length (ms : List CSModule) :
    ∀ (acc : List CSModule) (evs : List Ev),
      (dedupLoop acc evs ms).1.length + (dedupLoop acc evs ms).2.length
        = acc.length + evs.length + ms.length := by
  induction ms with
  | nil =>
      intro acc evs
      simp [dedupLoop]
  | cons m rest ih =>
      intro acc evs
      rw [dedupLoop]
      by_cases hdup : acc.any (fun y => CSModule.beq y m) = true
      · rw [if_pos hdup]
        have h := ih acc (evs ++ [.warnDuplicateModule])
        simp only [List.length_append, List.length_cons, List.length_nil] at h ⊢
        omega
      · rw [if_neg hdup]
        have h := ih (acc ++ [m]) evs
        simp only [List.length_append, List.length_cons, List.length_nil] at h ⊢
        omega

/-- Parsing every module entry of one service, in order, propagating
the first failure. -/
def parseAllMods : List Json → Except PyErr (List CSModule)
  | [] => .ok []
  | j :: rest =>
      match CSModuleFromJson j with
      | .error e => .error e
      | .ok m =>
          match parseAllMods rest with
          | .error e => .error e
          | .ok ms => .ok (m :: ms)

/-- When every module entry parses, the interleaved parse-and-dedup
loop of `CSHomeItemFromJson` computes exactly the pure duplicate
rejection over the parsed modules. -/
theorem buildModules_eq_dedup (js : List Json) :
    ∀ (ms : List CSModule) (acc : List CSModule) (evs : List Ev),
      parseAllMods js = .ok ms →
      buildModules js acc evs = .ok (dedupLoop acc evs ms) := by
  induction js with
  | nil =>
      intro ms acc evs h
      rw [parseAllMods] at h
      cases h
      rfl
  | cons j rest ih =>
      intro ms acc evs h
      rw [parseAllMods] at h
      cases hj : CSModuleFromJson j with
      | error e =>
          rw [hj] at h
          exact Except.noConfusion h
      | ok m =>
          rw [hj] at h
          cases hr : parseAllMods rest with
          | error e =>
              rw [hr] at h
              exact Except.noConfusion h
          | ok ms0 =>
              rw [hr] at h
              cases h
              simp only [buildModules, hj, dedupLoop]
              by_cases hdup : acc.any (fun y => CSModule.beq y m) = true
              · rw [if_pos hdup, if_pos hdup]
                exact ih ms0 _ _ hr
              · rw [if_neg hdup, if_neg hdup]
                exact ih ms0 _ _ hr

/-- C9: modules with identical (mac, sn, name, type, index) compare
equal under `CSModule.__eq__`; and the per-service module loop keeps a
list in which no two modules compare equal, represents every incoming
module by its first kept instance, and logs one duplicate warning per
rejected module (kept + warnings account for the whole input).  The
interleaved parse-and-reject loop of `CSHomeItemFromJson` agrees with
the pure duplicate rejection whenever all entries parse, and on a
concrete pair of identical modules the first instance alone is kept
with one logged warning. -/
theorem module_equality_and_dedup :
    (∀ m1 m2 : CSModule, m1.mac = m2.mac → m1.sn = m2.sn →
        m1.name = m2.name → m1.type = m2.type → m1.index = m2.index →
        CSModule.beq m1 m2 = true) ∧
    (∀ ms : List CSModule,
        (dedupModules ms).1.Pairwise (fun a b => CSModule.beq a b = false) ∧
        (∀ m ∈ ms, ∃ x ∈ (dedupModules ms).1, CSModule.beq x m = true) ∧
        (dedupModules ms).1.length + (dedupModules ms).2.length = ms.length) ∧
    (∀ (js : List Json) (ms : List CSModule), parseAllMods js = .ok ms →
        buildModules js [] [] = .ok (dedupModules ms)) ∧
    dedupModules [sampleModule, sampleModule] =
      ([sampleModule], [.warnDuplicateModule]) := by
  refine ⟨?_, ?_, ?_, ?_⟩
  · intro m1 m2 h1 h2 h3 h4 h5
    cases m1
    cases m2
    dsimp only at h1 h2 h3 h4 h5
    subst h1
    subst h2
    subst h3
    subst h4
    subst h5
    exact CSModule.beq_refl _
  · intro ms
    refine ⟨dedupLoop_pairwise ms [] [] List.Pairwise.nil,
      dedupLoop_covers ms [] [], ?_⟩
    have h := dedupLoop_length ms [] []
    simpa [dedupModules] using h
  · intro js ms h
    exact buildModules_eq_dedup js ms [] [] h
  · rfl

/-- C9, witness: the claim's parts applied at concrete inputs — the
sample module equals itself, is `beq`-represented in the deduplicated
two-copy list, and the parse-and-reject loop on the empty list agrees
with the pure rejection. -/
theorem module_equality_and_dedup_witness :
    CSModule.beq sampleModule sampleModule = true ∧
    (∃ x ∈ (dedupModules [sampleModule, sampleModule]).1,
        CSModule.beq x sampleModule = true) ∧
    buildModules [] [] [] = .ok (dedupModules []) :=
  ⟨module_equality_and_dedup.1 sampleModule sampleModule rfl rfl rfl rfl rfl,
   (module_equality_and_dedup.2.1 [sampleModule, sampleModule]).2.1
     sampleModule (by simp),
   module_equality_and_dedup.2.2.1 [] [] rfl⟩
